import Mathlib

/-! Shallow embedding of the decorator integration layer of pandera
(src/pandera/decorators.py): the `check_input` and `check_output`
wrappers, modelled over an abstract Python value type.  The schema
engine itself is outside this file's source; per its interface contract,
`schema.validate(obj, head, tail, sample, random_state)` either returns
the (possibly transformed) object or raises a `SchemaError`, and
`schema.transformer` is readable.  A wrapper run is modelled as a pure
function returning the raised exception or returned value, together with
the number of times the wrapped function was invoked and (for
`check_output`) the list of warning messages issued. -/

/-- Python values as the decorators see them: an opaque dataframe-like
object, a list-like value, or a dict-like value with string keys. -/
inductive PyVal where
  | base (n : Nat)
  | pyList (xs : List PyVal)
  | pyDict (entries : List (String × PyVal))

/-- The Python exception kinds reachable from the decorator code. -/
inductive PyErr where
  | schemaError (msg : String)
  | indexError (msg : String)
  | keyError (key : String)
  | typeError (msg : String)
  | valueError (msg : String)
deriving DecidableEq

/-- Whether an exception is a `SchemaError` (the schema-violation kind). -/
def PyErr.isSchemaError : PyErr → Bool
  | .schemaError _ => true
  | _ => false

/-- The runtime type of the `obj_getter` argument, on which the source
dispatches with `isinstance`: `None`, `int`, `str`, a callable, or any
other (unsupported) type, carried with its Python type name. -/
inductive ObjGetter where
  | pyNone
  | byIndex (i : Int)
  | byName (k : String)
  | byCallable (f : PyVal → PyVal)
  | other (typeName : String)

/-- The string `%s`-interpolation of `type(obj_getter)`. -/
def ObjGetter.typeName : ObjGetter → String
  | .pyNone => "<class 'NoneType'>"
  | .byIndex _ => "<class 'int'>"
  | .byName _ => "<class 'str'>"
  | .byCallable _ => "<class 'function'>"
  | .other t => t

/-- Python list index normalisation: a negative index counts from the
end; `none` when the index is out of range. -/
def pyNormIdx (i : Int) (len : Nat) : Option Nat :=
  if 0 ≤ i then
    if i < (len : Int) then some i.toNat else none
  else
    if 0 ≤ (len : Int) + i then some ((len : Int) + i).toNat else none

/-- Python `xs[i]` on a list: the element, or an `IndexError`. -/
def pyListGet (xs : List PyVal) (i : Int) : Except PyErr PyVal :=
  match pyNormIdx i xs.length with
  | some j =>
      match xs[j]? with
      | some v => .ok v
      | none => .error (.indexError "list index out of range")
  | none => .error (.indexError "list index out of range")

/-- Python `xs[i] = v` on a list at an index already known valid (the
source only assigns after a successful read of the same index). -/
def pyListSet (xs : List PyVal) (i : Int) (v : PyVal) : List PyVal :=
  match pyNormIdx i xs.length with
  | some j => xs.set j v
  | none => xs

/-- Dict lookup on an association list with unique keys (Python dicts
and keyword-argument mappings never hold duplicate keys). -/
def lookupA : List (String × PyVal) → String → Option PyVal
  | [], _ => none
  | (k2, v) :: rest, k => if k2 = k then some v else lookupA rest k

/-- Dict update of an existing key, preserving insertion order. -/
def updateA : List (String × PyVal) → String → PyVal → List (String × PyVal)
  | [], _, _ => []
  | (k2, v2) :: rest, k, v =>
      if k2 = k then (k, v) :: rest else (k2, v2) :: updateA rest k v

/-- Python `out[key]` for an int or str subscript. -/
inductive PyKey where
  | intKey (i : Int)
  | strKey (k : String)

/-- Python subscription `out[key]` on a decorator output value: list
indexing for int keys, dict lookup for str keys, `TypeError` when the
value is not subscriptable that way, `KeyError` when a key is absent. -/
def PyVal.getItem : PyVal → PyKey → Except PyErr PyVal
  | .pyList xs, .intKey i => pyListGet xs i
  | .pyList _, .strKey _ =>
      .error (.typeError "list indices must be integers or slices, not str")
  | .pyDict es, .strKey k =>
      match lookupA es k with
      | some v => .ok v
      | none => .error (.keyError k)
  | .pyDict _, .intKey i => .error (.keyError (toString i))
  | .base _, _ => .error (.typeError "object is not subscriptable")

/-- The schema engine as the decorators use it: `validate` returns the
possibly transformed value or raises a `SchemaError` carrying a message,
and `transformer` is a readable optional transform. -/
structure Schema where
  validate : PyVal → Option Nat → Option Nat → Option Nat → Option Nat →
      Except String PyVal
  transformer : Option (PyVal → PyVal)

/-- A decorated Python function: its `__name__`, its declared positional
parameter names from `inspect.getfullargspec(fn).args`, whether
`inspect.ismethod(fn)` holds, and its (pure) body. -/
structure PyFn where
  name : String
  argnames : List String
  isMethod : Bool
  impl : List PyVal → List (String × PyVal) → PyVal

/-- `_get_fn_argnames`: the declared argument names, dropping a leading
`self` when the function is a bound method. -/
def _get_fn_argnames (fn : PyFn) : List String :=
  match fn.argnames with
  | a :: rest => if fn.isMethod ∧ a = "self" then rest else fn.argnames
  | [] => fn.argnames

/-- The message of the `SchemaError` raised by `check_input` when an int
`obj_getter` indexes out of the positional-argument list. -/
def input_index_msg (fname : String) (i : Int) (nargs : Nat) (e : String) :
    String :=
  "error in check_input decorator of function '" ++ fname ++
  "': the index '" ++ toString i ++
  "' was supplied to the check but this function accepts '" ++
  toString nargs ++ "' arguments, so the maximum index is '" ++
  toString (max 0 (nargs - 1)) ++ "'. The full error is: '" ++ e ++ "'"

/-- The prefixed message `check_input` re-raises on its `None` path. -/
def input_wrap_msg (fname msg : String) : String :=
  "error in check_input decorator of function '" ++ fname ++ "': " ++ msg

/-- The prefixed message `check_output` re-raises. -/
def output_wrap_msg (fname msg : String) : String :=
  "error in check_output decorator of function '" ++ fname ++ "': " ++ msg

/-- The `ValueError` message for an unsupported `obj_getter` type. -/
def unrecognized_msg (tyName : String) : String :=
  "obj_getter is unrecognized type: " ++ tyName

/-- The warning `check_output` issues when the schema has a transform. -/
def transformer_warning (fname : String) : String :=
  "The schema transformer function has no effect in a check_output " ++
  "decorator. Please perform the necessary transformations in the '" ++
  fname ++ "' function instead."

/-- One run of the wrapper installed by `check_input(schema, obj_getter,
head, tail, sample, random_state)` on a call `fn(*args, **kwargs)`.
Returns the raised exception or `fn`'s return value, paired with how
many times `fn` was invoked.  Mirrors the source line by line: the int
path validates `args[obj_getter]` in place, turning an `IndexError` into
a `SchemaError` with a configuration message; the str path validates the
kwarg if present, else the positional argument matched by name through
`OrderedDict(zip(argnames, args))`, whose read of a missing key raises
`KeyError`; the `None` path validates `args[0]`, forwarding the sampling
parameters, and only this path wraps a `SchemaError` with the function
name (an `IndexError` from `args[0]` is not caught); other types raise
`ValueError`. -/
def check_input (s : Schema) (og : ObjGetter)
    (head tail sample random_state : Option Nat)
    (fn : PyFn) (args : List PyVal) (kwargs : List (String × PyVal)) :
    Except PyErr PyVal × Nat :=
  match og with
  | .byIndex i =>
      match pyListGet args i with
      | .error (.indexError e) =>
          (.error (.schemaError
            (input_index_msg fn.name i (_get_fn_argnames fn).length e)), 0)
      | .error e => (.error e, 0)
      | .ok v =>
          match s.validate v none none none none with
          | .error m => (.error (.schemaError m), 0)
          | .ok v2 => (.ok (fn.impl (pyListSet args i v2) kwargs), 1)
  | .byName k =>
      match lookupA kwargs k with
      | some v =>
          match s.validate v none none none none with
          | .error m => (.error (.schemaError m), 0)
          | .ok v2 => (.ok (fn.impl args (updateA kwargs k v2)), 1)
      | none =>
          match lookupA (List.zip (_get_fn_argnames fn) args) k with
          | none => (.error (.keyError k), 0)
          | some v =>
              match s.validate v none none none none with
              | .error m => (.error (.schemaError m), 0)
              | .ok v2 =>
                  (.ok (fn.impl
                    ((updateA (List.zip (_get_fn_argnames fn) args) k v2).map
                      Prod.snd) kwargs), 1)
  | .pyNone =>
      match pyListGet args 0 with
      | .error e => (.error e, 0)
      | .ok v =>
          match s.validate v head tail sample random_state with
          | .error m =>
              (.error (.schemaError (input_wrap_msg fn.name m)), 0)
          | .ok v2 => (.ok (fn.impl (pyListSet args 0 v2) kwargs), 1)
  | .byCallable f =>
      (.error (.valueError (unrecognized_msg (ObjGetter.byCallable f).typeName)), 0)
  | .other t => (.error (.valueError (unrecognized_msg t)), 0)

/-- The `obj = out` / `out[obj_getter]` / `obj_getter(out)` dispatch of
`check_output`, selecting the object to validate from the output. -/
def check_output_resolve (og : ObjGetter) (out : PyVal) :
    Except PyErr PyVal :=
  match og with
  | .pyNone => .ok out
  | .byIndex i => out.getItem (.intKey i)
  | .byName k => out.getItem (.strKey k)
  | .byCallable f => .ok (f out)
  | .other t => .error (.valueError (unrecognized_msg t))

/-- The warning list `check_output` issues before calling `fn`: one
warning exactly when the schema declares a transformer. -/
def output_warnings (s : Schema) (fn : PyFn) : List String :=
  if s.transformer.isSome then [transformer_warning fn.name] else []

/-- What `check_output` does after `out = fn(*args, **kwargs)`: resolve
the object to validate, validate it with the sampling parameters,
wrapping a raised `SchemaError`'s message with the function name, and on
success return `out` itself, discarding `validate`'s result. -/
def check_output_result (s : Schema) (og : ObjGetter)
    (head tail sample random_state : Option Nat)
    (fn : PyFn) (out : PyVal) : Except PyErr PyVal :=
  match check_output_resolve og out with
  | .error e => .error e
  | .ok obj =>
      match s.validate obj head tail sample random_state with
      | .error m => .error (.schemaError (output_wrap_msg fn.name m))
      | .ok _ => .ok out

/-- One run of the wrapper installed by `check_output(...)` on a call
`fn(*args, **kwargs)`: warn if a transformer is declared, call `fn`
exactly once, then validate the resolved part of its output.  Returns
(raised exception or returned value, number of `fn` invocations, issued
warnings). -/
def check_output (s : Schema) (og : ObjGetter)
    (head tail sample random_state : Option Nat)
    (fn : PyFn) (args : List PyVal) (kwargs : List (String × PyVal)) :
    Except PyErr PyVal × Nat × List String :=
  (check_output_result s og head tail sample random_state fn
     (fn.impl args kwargs), 1, output_warnings s fn)

/-- A schema whose validation always fails with message `boom`. -/
def boomSchema : Schema := ⟨fun _ _ _ _ _ => .error "boom", none⟩

/-- A schema whose validation accepts every value unchanged. -/
def okSchema : Schema := ⟨fun v _ _ _ _ => .ok v, none⟩

/-- A schema with a declared transformer whose validation replaces the
value by the transformed value `base 99`. -/
def transformSchema : Schema :=
  ⟨fun _ _ _ _ _ => .ok (.base 99), some (fun v => v)⟩

/-- A two-argument test function `my_fun(x, df)` returning the list of
its positional arguments, so the call it received is observable. -/
def myFun : PyFn := ⟨"my_fun", ["x", "df"], false, fun args _ => .pyList args⟩

/-- A bound method `meth(self, df)`, for the `self`-exclusion rule of
`_get_fn_argnames`. -/
def methodFun : PyFn := ⟨"meth", ["self", "df"], true, fun args _ => .pyList args⟩

/-- Helper: the wrapped function is invoked zero times exactly on the
`check_input` paths that raise, once exactly on the path that returns. -/
theorem check_input_fnCalls (s : Schema) (og : ObjGetter) (fn : PyFn)
    (args : List PyVal) (kwargs : List (String × PyVal))
    (hh tt sm rs : Option Nat) :
    (check_input s og hh tt sm rs fn args kwargs).2
      = match (check_input s og hh tt sm rs fn args kwargs).1 with
        | .ok _ => 1
        | .error _ => 0 := by
  unfold check_input
  cases og <;> dsimp only <;> (repeat' split) <;> simp_all

/-- Claim C1 (amended): when `schema.validate` raises a `SchemaError`,
no decorator path swallows it or replaces its kind — every `check_input`
path and `check_output` re-raise a `SchemaError` — but the contextual
prefix naming the wrapped function is added only on `check_input`'s
`None` path and in `check_output`; on the int and string paths the
original `SchemaError` propagates with its message unchanged. -/
theorem C1_schemaError_propagation
    (s : Schema) (og : ObjGetter) (fn : PyFn) (args : List PyVal)
    (kwargs : List (String × PyVal)) (hh tt sm rs : Option Nat)
    (msg : String) (i : Int) (k : String) (v w : PyVal) :
    (pyListGet args i = .ok v →
      s.validate v none none none none = .error msg →
      (check_input s (.byIndex i) hh tt sm rs fn args kwargs).1
        = .error (.schemaError msg))
    ∧ (lookupA kwargs k = some v →
      s.validate v none none none none = .error msg →
      (check_input s (.byName k) hh tt sm rs fn args kwargs).1
        = .error (.schemaError msg))
    ∧ (lookupA kwargs k = none →
      lookupA (List.zip (_get_fn_argnames fn) args) k = some v →
      s.validate v none none none none = .error msg →
      (check_input s (.byName k) hh tt sm rs fn args kwargs).1
        = .error (.schemaError msg))
    ∧ (pyListGet args 0 = .ok v →
      s.validate v hh tt sm rs = .error msg →
      (check_input s .pyNone hh tt sm rs fn args kwargs).1
        = .error (.schemaError (input_wrap_msg fn.name msg)))
    ∧ (check_output_resolve og (fn.impl args kwargs) = .ok w →
      s.validate w hh tt sm rs = .error msg →
      (check_output s og hh tt sm rs fn args kwargs).1
        = .error (.schemaError (output_wrap_msg fn.name msg))) := by
  refine ⟨?_, ?_, ?_, ?_, ?_⟩
  · intro h1 h2
    simp [check_input, h1, h2]
  · intro h1 h2
    simp [check_input, h1, h2]
  · intro h1 h2 h3
    simp [check_input, h1, h2, h3]
  · intro h1 h2
    simp [check_input, h1, h2]
  · intro h1 h2
    simp [check_output, check_output_result, h1, h2]

/-- Witness for C1: with a schema raising `boom`, the int path re-raises
the bare message, the `None` path and `check_output` the prefixed one. -/
theorem C1_schemaError_propagation_witness :
    (check_input boomSchema (.byIndex 0) none none none none myFun
        [.base 0] []).1 = .error (.schemaError "boom")
    ∧ (check_input boomSchema .pyNone none none none none myFun
        [.base 0] []).1
      = .error (.schemaError (input_wrap_msg "my_fun" "boom"))
    ∧ (check_output boomSchema .pyNone none none none none myFun
        [.base 0] []).1
      = .error (.schemaError (output_wrap_msg "my_fun" "boom")) := by
  have h := C1_schemaError_propagation boomSchema .pyNone myFun [.base 0] []
    none none none none "boom" 0 "df" (.base 0) (.pyList [.base 0])
  exact ⟨h.1 rfl rfl, h.2.2.2.1 rfl rfl, h.2.2.2.2 rfl rfl⟩

/-- Counterexample to C1 as stated: on the int-`obj_getter` path of
`check_input` the re-raised `SchemaError` carries the original message
with no contextual prefix naming the wrapped function. -/
theorem C1_counterexample :
    (check_input boomSchema (.byIndex 0) none none none none myFun
        [.base 0] []).1 = .error (.schemaError "boom")
    ∧ "boom" ≠ input_wrap_msg "my_fun" "boom" := by
  exact ⟨rfl, by decide⟩

/-- Claim C2: `check_input` with an int `obj_getter` replaces the
positional argument at that index by the result of `schema.validate`
(hence by the transformed value when the schema transforms) before the
wrapped function is called. -/
theorem C2_index_argument_replaced
    (s : Schema) (fn : PyFn) (args : List PyVal)
    (kwargs : List (String × PyVal)) (hh tt sm rs : Option Nat)
    (i : Int) (v v2 : PyVal)
    (hget : pyListGet args i = .ok v)
    (hval : s.validate v none none none none = .ok v2) :
    check_input s (.byIndex i) hh tt sm rs fn args kwargs
      = (.ok (fn.impl (pyListSet args i v2) kwargs), 1) := by
  simp [check_input, hget, hval]

/-- Witness for C2: a transforming schema makes `my_fun` receive
`base 99` in place of its second positional argument `base 2`. -/
theorem C2_index_argument_replaced_witness :
    check_input transformSchema (.byIndex 1) none none none none myFun
        [.base 1, .base 2] []
      = (.ok (.pyList [.base 1, .base 99]), 1) :=
  C2_index_argument_replaced transformSchema myFun [.base 1, .base 2] []
    none none none none 1 (.base 2) (.base 99) rfl rfl

/-- Claim C3: when validation succeeds, `check_output` returns the
wrapped function's output unchanged; the value returned by
`schema.validate` (a transform result included) is discarded. -/
theorem C3_output_returned_unchanged
    (s : Schema) (og : ObjGetter) (fn : PyFn) (args : List PyVal)
    (kwargs : List (String × PyVal)) (hh tt sm rs : Option Nat)
    (obj w : PyVal)
    (hres : check_output_resolve og (fn.impl args kwargs) = .ok obj)
    (hval : s.validate obj hh tt sm rs = .ok w) :
    (check_output s og hh tt sm rs fn args kwargs).1
      = .ok (fn.impl args kwargs) := by
  simp [check_output, check_output_result, hres, hval]

/-- Witness for C3: a schema validating to the transformed `base 99`
still leaves `check_output` returning the original `pyList [base 1]`. -/
theorem C3_output_returned_unchanged_witness :
    (check_output transformSchema .pyNone none none none none myFun
        [.base 1] []).1 = .ok (.pyList [.base 1]) :=
  C3_output_returned_unchanged transformSchema .pyNone myFun [.base 1] []
    none none none none (.pyList [.base 1]) (.base 99) rfl rfl

/-- Counterexample to C4 as stated: an out-of-range int `obj_getter` in
`check_input` is reported as a `SchemaError` — the schema-violation
kind — not as a distinctly tagged configuration error. -/
theorem C4_counterexample :
    (check_input okSchema (.byIndex 5) none none none none myFun
        [.base 0] []).1
      = .error (.schemaError
          (input_index_msg "my_fun" 5 2 "list index out of range"))
    ∧ (PyErr.schemaError
        (input_index_msg "my_fun" 5 2 "list index out of range")).isSchemaError
      = true :=
  ⟨rfl, rfl⟩

/-- Claim C4 (amended): an `obj_getter` of unsupported type raises a
`ValueError` in both decorators, a name not resolvable in `check_input`
raises a `KeyError`, and an out-of-range index in `check_output` raises
an `IndexError` — all distinct from `SchemaError`; but an out-of-range
int `obj_getter` in `check_input` raises a `SchemaError` whose message
describes the configuration mistake. -/
theorem C4_selector_error_kinds
    (s : Schema) (fn : PyFn) (args xs : List PyVal)
    (kwargs : List (String × PyVal)) (hh tt sm rs : Option Nat)
    (i : Int) (k t0 : String) (g : PyVal → PyVal) :
    ((check_input s (.other t0) hh tt sm rs fn args kwargs).1
        = .error (.valueError (unrecognized_msg t0)))
    ∧ ((check_output s (.other t0) hh tt sm rs fn args kwargs).1
        = .error (.valueError (unrecognized_msg t0)))
    ∧ ((check_input s (.byCallable g) hh tt sm rs fn args kwargs).1
        = .error (.valueError (unrecognized_msg "<class 'function'>")))
    ∧ (pyNormIdx i args.length = none →
      (check_input s (.byIndex i) hh tt sm rs fn args kwargs).1
        = .error (.schemaError (input_index_msg fn.name i
            (_get_fn_argnames fn).length "list index out of range")))
    ∧ (lookupA kwargs k = none →
      lookupA (List.zip (_get_fn_argnames fn) args) k = none →
      (check_input s (.byName k) hh tt sm rs fn args kwargs).1
        = .error (.keyError k))
    ∧ (fn.impl args kwargs = .pyList xs → pyNormIdx i xs.length = none →
      (check_output s (.byIndex i) hh tt sm rs fn args kwargs).1
        = .error (.indexError "list index out of range")) := by
  refine ⟨rfl, rfl, rfl, ?_, ?_, ?_⟩
  · intro h1
    simp [check_input, pyListGet, h1]
  · intro h1 h2
    simp [check_input, h1, h2]
  · intro h1 h2
    simp [check_output, check_output_result, check_output_resolve, h1,
      PyVal.getItem, pyListGet, h2]

/-- Witness for C4 (amended): concrete unsupported-type, out-of-range
and missing-name selectors and the exception kind each produces. -/
theorem C4_selector_error_kinds_witness :
    (check_input okSchema (.other "<class 'float'>") none none none none
        myFun [.base 0] []).1
      = .error (.valueError (unrecognized_msg "<class 'float'>"))
    ∧ (check_input okSchema (.byIndex 5) none none none none myFun
        [.base 0] []).1
      = .error (.schemaError
          (input_index_msg "my_fun" 5 2 "list index out of range"))
    ∧ (check_input okSchema (.byName "nope") none none none none myFun
        [.base 0] []).1
      = .error (.keyError "nope")
    ∧ (check_output okSchema (.byIndex 5) none none none none myFun
        [.base 0] []).1
      = .error (.indexError "list index out of range") := by
  have h := C4_selector_error_kinds okSchema myFun [.base 0] [.base 0] []
    none none none none 5 "nope" "<class 'float'>" (fun v => v)
  exact ⟨h.1, h.2.2.2.1 rfl, h.2.2.2.2.1 rfl rfl, h.2.2.2.2.2 rfl rfl⟩

/-- Claim C5: `check_input` never calls the wrapped function when it
raises (validation is strictly before the call, and a successful run
calls it exactly once); `check_output` invokes the wrapped function
exactly once on every run. -/
theorem C5_call_discipline
    (s : Schema) (og : ObjGetter) (fn : PyFn) (args : List PyVal)
    (kwargs : List (String × PyVal)) (hh tt sm rs : Option Nat) :
    (∀ e, (check_input s og hh tt sm rs fn args kwargs).1 = .error e →
      (check_input s og hh tt sm rs fn args kwargs).2 = 0)
    ∧ (∀ v, (check_input s og hh tt sm rs fn args kwargs).1 = .ok v →
      (check_input s og hh tt sm rs fn args kwargs).2 = 1)
    ∧ (check_output s og hh tt sm rs fn args kwargs).2.1 = 1 := by
  refine ⟨?_, ?_, rfl⟩
  · intro e he
    rw [check_input_fnCalls s og fn args kwargs hh tt sm rs, he]
  · intro v hv
    rw [check_input_fnCalls s og fn args kwargs hh tt sm rs, hv]

/-- Witness for C5: a failing input validation leaves the wrapped
function uncalled; a passing one calls it once. -/
theorem C5_call_discipline_witness :
    (check_input boomSchema (.byIndex 0) none none none none myFun
        [.base 0] []).2 = 0
    ∧ (check_input okSchema (.byIndex 0) none none none none myFun
        [.base 0] []).2 = 1 := by
  constructor
  · exact (C5_call_discipline boomSchema (.byIndex 0) myFun [.base 0] []
      none none none none).1 (.schemaError "boom") rfl
  · exact (C5_call_discipline okSchema (.byIndex 0) myFun [.base 0] []
      none none none none).2.1 (.pyList [.base 0]) rfl

/-- Claim C6: the integration layer selects the value to validate by
positional index, by name — the kwarg when present, otherwise the
positional argument matched through the declared parameter list with an
implicit `self` receiver excluded — and by a callable extractor applied
to the return value in `check_output` only (`check_input` rejects a
callable with a `ValueError`). -/
theorem C6_selection_modes
    (s : Schema) (fn : PyFn) (args : List PyVal)
    (kwargs : List (String × PyVal)) (hh tt sm rs : Option Nat)
    (i : Int) (k : String) (g : PyVal → PyVal) (v v2 w : PyVal)
    (rest : List String) :
    (pyListGet args i = .ok v →
      s.validate v none none none none = .ok v2 →
      check_input s (.byIndex i) hh tt sm rs fn args kwargs
        = (.ok (fn.impl (pyListSet args i v2) kwargs), 1))
    ∧ (lookupA kwargs k = some v →
      s.validate v none none none none = .ok v2 →
      check_input s (.byName k) hh tt sm rs fn args kwargs
        = (.ok (fn.impl args (updateA kwargs k v2)), 1))
    ∧ (lookupA kwargs k = none →
      lookupA (List.zip (_get_fn_argnames fn) args) k = some v →
      s.validate v none none none none = .ok v2 →
      check_input s (.byName k) hh tt sm rs fn args kwargs
        = (.ok (fn.impl
            ((updateA (List.zip (_get_fn_argnames fn) args) k v2).map
              Prod.snd) kwargs), 1))
    ∧ (fn.isMethod = true → fn.argnames = "self" :: rest →
      _get_fn_argnames fn = rest)
    ∧ (s.validate (g (fn.impl args kwargs)) hh tt sm rs = .ok w →
      (check_output s (.byCallable g) hh tt sm rs fn args kwargs).1
        = .ok (fn.impl args kwargs))
    ∧ (check_input s (.byCallable g) hh tt sm rs fn args kwargs
        = (.error (.valueError (unrecognized_msg "<class 'function'>")), 0))
    := by
  refine ⟨?_, ?_, ?_, ?_, ?_, rfl⟩
  · intro h1 h2
    simp [check_input, h1, h2]
  · intro h1 h2
    simp [check_input, h1, h2]
  · intro h1 h2 h3
    simp [check_input, h1, h2, h3]
  · intro h1 h2
    unfold _get_fn_argnames
    rw [h2]
    simp [h1]
  · intro h1
    simp [check_output, check_output_result, check_output_resolve, h1]

/-- Witness for C6: each selection mode exercised on concrete calls,
including name resolution from positional arguments, `self` exclusion on
a bound method, and a callable extractor on the output. -/
theorem C6_selection_modes_witness :
    check_input transformSchema (.byIndex 0) none none none none myFun
        [.base 1] []
      = (.ok (.pyList [.base 99]), 1)
    ∧ check_input transformSchema (.byName "df") none none none none myFun
        [.base 1] [("df", .base 2)]
      = (.ok (.pyList [.base 1]), 1)
    ∧ check_input transformSchema (.byName "df") none none none none myFun
        [.base 1, .base 2] []
      = (.ok (.pyList [.base 1, .base 99]), 1)
    ∧ _get_fn_argnames methodFun = ["df"]
    ∧ (check_output okSchema (.byCallable (fun v => v)) none none none none
        myFun [.base 1] []).1 = .ok (.pyList [.base 1])
    ∧ check_input okSchema (.byCallable (fun v => v)) none none none none
        myFun [.base 1] []
      = (.error (.valueError (unrecognized_msg "<class 'function'>")), 0) := by
  have h := C6_selection_modes transformSchema myFun [.base 1] []
    none none none none 0 "df" (fun v => v) (.base 1) (.base 99)
    (.pyList [.base 1]) ["df"]
  have h2 := C6_selection_modes transformSchema myFun [.base 1]
    [("df", .base 2)] none none none none 0 "df" (fun v => v) (.base 2)
    (.base 99) (.pyList [.base 1]) ["df"]
  have h3 := C6_selection_modes transformSchema myFun [.base 1, .base 2] []
    none none none none 0 "df" (fun v => v) (.base 2) (.base 99)
    (.pyList [.base 1]) ["df"]
  have h4 := C6_selection_modes okSchema methodFun [.base 1] []
    none none none none 0 "df" (fun v => v) (.base 1) (.base 1)
    (.pyList [.base 1]) ["df"]
  exact ⟨h.1 rfl rfl, h2.2.1 rfl rfl, h3.2.2.1 rfl rfl rfl,
    h4.2.2.2.1 rfl rfl, h4.2.2.2.2.1 rfl, h4.2.2.2.2.2⟩

/-- Claim C7: `check_output` issues its non-fatal warning exactly when
the schema declares a transformer, and the warning changes nothing else:
the run's outcome equals the outcome under the same schema without a
transformer, and the wrapped function is still invoked (once). -/
theorem C7_transformer_warning_iff
    (s : Schema) (og : ObjGetter) (fn : PyFn) (args : List PyVal)
    (kwargs : List (String × PyVal)) (hh tt sm rs : Option Nat) :
    ((check_output s og hh tt sm rs fn args kwargs).2.2
        = if s.transformer.isSome then [transformer_warning fn.name] else [])
    ∧ ((check_output s og hh tt sm rs fn args kwargs).2.2 ≠ []
        ↔ s.transformer.isSome = true)
    ∧ ((check_output s og hh tt sm rs fn args kwargs).1
        = (check_output ⟨s.validate, none⟩ og hh tt sm rs fn args kwargs).1)
    ∧ ((check_output s og hh tt sm rs fn args kwargs).2.1 = 1) := by
  refine ⟨rfl, ?_, rfl, rfl⟩
  show output_warnings s fn ≠ [] ↔ s.transformer.isSome = true
  unfold output_warnings
  cases s.transformer <;> simp

/-- Claim C8: the sampling parameters of `check_input` reach
`schema.validate` only on the `obj_getter = None` path; the int and
string paths ignore them entirely, and the `None` path forwards all
four. -/
theorem C8_sampling_only_on_none_path
    (s : Schema) (fn : PyFn) (args rest : List PyVal)
    (kwargs : List (String × PyVal)) (hh tt sm rs : Option Nat)
    (i : Int) (k : String) (a0 : PyVal) :
    (check_input s (.byIndex i) hh tt sm rs fn args kwargs
       = check_input s (.byIndex i) none none none none fn args kwargs)
    ∧ (check_input s (.byName k) hh tt sm rs fn args kwargs
       = check_input s (.byName k) none none none none fn args kwargs)
    ∧ (check_input s .pyNone hh tt sm rs fn (a0 :: rest) kwargs
       = match s.validate a0 hh tt sm rs with
         | .error m => (.error (.schemaError (input_wrap_msg fn.name m)), 0)
         | .ok v2 => (.ok (fn.impl (v2 :: rest) kwargs), 1)) := by
  refine ⟨rfl, rfl, ?_⟩
  have hlen : (0 : Int) < ((a0 :: rest).length : Int) := by
    simp
  have hg : pyListGet (a0 :: rest) 0 = .ok a0 := by
    unfold pyListGet pyNormIdx
    rw [if_pos le_rfl, if_pos hlen]
    simp
  have hs : ∀ v2, pyListSet (a0 :: rest) 0 v2 = v2 :: rest := by
    intro v2
    unfold pyListSet pyNormIdx
    rw [if_pos le_rfl, if_pos hlen]
    simp
  rcases hv : s.validate a0 hh tt sm rs with m | v2
  · simp [check_input, hg, hv]
  · simp [check_input, hg, hv, hs]

/-- Claim C9: a string `obj_getter` naming a parameter that is neither
in the kwargs nor bound by zipping the declared parameter names with the
positional arguments makes `check_input` raise an uncaught `KeyError`,
not a `SchemaError` and not a tagged configuration error. -/
theorem C9_missing_name_raises_keyerror
    (s : Schema) (fn : PyFn) (args : List PyVal)
    (kwargs : List (String × PyVal)) (hh tt sm rs : Option Nat) (k : String)
    (h1 : lookupA kwargs k = none)
    (h2 : lookupA (List.zip (_get_fn_argnames fn) args) k = none) :
    check_input s (.byName k) hh tt sm rs fn args kwargs
      = (.error (.keyError k), 0) := by
  simp [check_input, h1, h2]

/-- Witness for C9: `my_fun(x, df)` called as `my_fun(1)` with
`obj_getter = "df"` (the argument left to its default) raises
`KeyError("df")`. -/
theorem C9_missing_name_raises_keyerror_witness :
    check_input okSchema (.byName "df") none none none none myFun
        [.base 1] []
      = (.error (.keyError "df"), 0) :=
  C9_missing_name_raises_keyerror okSchema myFun [.base 1] []
    none none none none "df" rfl rfl

/-- Claim C10: with `obj_getter = None` and no positional arguments, the
value to validate is read as `args[0]`, so `check_input` raises an
uncaught `IndexError` instead of validating a keyword-supplied value,
and the wrapped function is not called. -/
theorem C10_none_getter_requires_positional
    (s : Schema) (fn : PyFn) (kwargs : List (String × PyVal))
    (hh tt sm rs : Option Nat) :
    check_input s .pyNone hh tt sm rs fn [] kwargs
      = (.error (.indexError "list index out of range"), 0) :=
  rfl
